import Mathlib

/-!
Verification development for the ncollide narrow-phase query core.

The Rust sources embedded here (shallowly, over exact rational arithmetic)
are:
  * `src/query/algorithms/epa2.rs` — the 2D Expanding Polytope Algorithm
    (`FaceId`, `Face`, `EPA2::project_origin`, the segment projection helper);
  * `ncollide_queries/geometry/time_of_impact_internal/any_against_any.rs` —
    the capability-dispatch router for time-of-impact queries;
  * `ncollide_pipeline/narrow_phase/proximity_detector/ball_ball_proximity_detector.rs`
    — the persistent ball/ball proximity detector;
  * `ncollide_queries/geometry/distance_internal/composite_shape_against_any.rs`
    — the composite-shape distance entry point.

Modelling conventions: the scalar type `N: Real` is embedded as `ℚ` (exact
arithmetic; machine epsilon is kept as the exact rational `2⁻⁵²` so the
source's tolerances are represented literally).  A Rust `panic!`/`unwrap`
failure is modelled as `Except.error` carrying the panic message, while an
ordinary `Option` return value stays an `Option` inside `Except.ok`.
External linear algebra (nalgebra) is out of the spec's scope; its two
entry points used by the EPA (`ccw_face_normal`, unit-vector normalization)
are modelled exactly over ℚ: a normal is produced when the edge length is a
rational number (in particular for every input used in concrete witnesses),
and the degenerate `None` branch of the source maps to the inexpressible
lengths as well.
-/

/-- Panic models a Rust `panic!` or failed `unwrap`/`expect`: the process
aborts carrying a message.  It is distinct from an `Option`-typed "no
result" return value. -/
structure Panic where
  msg : String
deriving DecidableEq

/-- V2 is a point or vector of the 2D instantiation (`P: Point` with
`P::Vect`), with exact rational coordinates. -/
structure V2 where
  x : ℚ
  y : ℚ
deriving DecidableEq

def V2.zero : V2 := ⟨0, 0⟩

instance : Sub V2 := ⟨fun a b => ⟨a.x - b.x, a.y - b.y⟩⟩

instance : Neg V2 := ⟨fun a => ⟨-a.x, -a.y⟩⟩

/-- dot embeds `na::dot`. -/
def dot (a b : V2) : ℚ := a.x * b.x + a.y * b.y

/-- perp2 embeds `utils::perp2`, the 2D cross product. -/
def perp2 (a b : V2) : ℚ := a.x * b.y - a.y * b.x

/-- normSq is the squared euclidean norm (`na::norm_squared`). -/
def normSq (a : V2) : ℚ := dot a a

/-- epsTol embeds `gjk::eps_tol::<f64>()`, and equally the local
`_eps_tol = N::default_epsilon() * 100` of `EPA2::project_origin`:
the f64 machine epsilon `2⁻⁵²` scaled by 100, kept exact. -/
def epsTol : ℚ := 100 / 2 ^ 52

/-- f64Max embeds `N::max_value()` for `N = f64`, kept exact. -/
def f64Max : ℚ := (2 - 1 / 2 ^ 52) * 2 ^ 1023

/-- sqrtAux is a fuel-driven integer square-root search: the largest `r`
with `r * r ≤ n`, provided the fuel dominates it. -/
def sqrtAux : Nat → Nat → Nat
  | 0, _ => 0
  | Nat.succ fuel, n =>
    let r := sqrtAux fuel n
    if (r + 1) * (r + 1) ≤ n then r + 1 else r

/-- natSqrt is the integer square root (structurally recursive so that it
evaluates inside the kernel). -/
def natSqrt (n : Nat) : Nat := sqrtAux n n

/-- ratSqrt is the exact square root on ℚ: `some` exactly when the argument
is a square of a rational.  It models the out-of-scope floating-point
`sqrt` used by nalgebra's unit-vector normalization, restricted to the
exactly representable results. -/
def ratSqrt (q : ℚ) : Option ℚ :=
  if q < 0 then none
  else
    let sn := natSqrt q.num.natAbs
    let sd := natSqrt q.den
    if sn * sn = q.num.natAbs ∧ sd * sd = q.den then some ((sn : ℚ) / (sd : ℚ))
    else none

/-- ccwFaceNormal embeds `Point::ccw_face_normal(&[a, b])` for the 2D case:
the outward unit normal of the counter-clockwise oriented edge `a → b`
(the direction rotated by -90°, normalized), or `none` when the edge is
degenerate (length zero, or length without an exact rational square root —
the modelled image of nalgebra's failed normalization). -/
def ccwFaceNormal (a b : V2) : Option V2 :=
  let d := b - a
  let n : V2 := ⟨d.y, -d.x⟩
  match ratSqrt (normSq n) with
  | some len => if len = 0 then none else some ⟨n.x / len, n.y / len⟩
  | none => none

/-- projectOriginSeg embeds the free function `project_origin(a, b)` of
`epa2.rs`: the projection of the origin onto the segment `[a, b]`, `none`
when the segment is degenerate or the projection falls in the Voronoï
region of an endpoint (outside `[-eps, sqnab + eps]`). -/
def projectOriginSeg (a b : V2) : Option V2 :=
  let ab := b - a
  let ap := -a
  let abAp := dot ab ap
  let sqnab := normSq ab
  if sqnab = 0 then none
  else
    if abAp < -epsTol ∨ abAp > sqnab + epsTol then none
    else
      let t := abAp / sqnab
      some ⟨t * b.x + (1 - t) * a.x, t * b.y + (1 - t) * a.y⟩

/-- FaceId embeds `FaceId<N>` of `epa2.rs`: an index into the face buffer
together with the priority key `neg_dist`. -/
structure FaceId where
  id : Nat
  negDist : ℚ
deriving DecidableEq

/-- FaceId.new embeds `FaceId::new`: the constructor refuses (returns
`none`) whenever `neg_dist > gjk::eps_tol()`, i.e. the origin is outside
the CSO past the tolerance. -/
def FaceId.new (id : Nat) (negDist : ℚ) : Option FaceId :=
  if epsTol < negDist then none
  else some ⟨id, negDist⟩

/-- Face embeds `Face<N>` of `epa2.rs`: two vertex-buffer indices, the
outward unit normal, the projection of the origin on the face, and the
lazy-deletion flag. -/
structure Face where
  pts : Nat × Nat
  normal : V2
  proj : V2
  deleted : Bool
deriving DecidableEq

def Face.dummy : Face := ⟨(0, 0), V2.zero, V2.zero, true⟩

/-- Face.newWithProj embeds `Face::new_with_proj`: the normal comes from
`ccw_face_normal`, and a degenerate edge marks the face deleted with a
zero normal. -/
def Face.newWithProj (vertices : List V2) (proj : V2) (pts : Nat × Nat) : Face :=
  match ccwFaceNormal (vertices.getD pts.1 V2.zero) (vertices.getD pts.2 V2.zero) with
  | some n => { pts := pts, normal := n, proj := proj, deleted := false }
  | none => { pts := pts, normal := V2.zero, proj := proj, deleted := true }

/-- Face.new embeds `Face::new`: the boolean is `proj_is_inside`, true
exactly when the origin projects inside the edge. -/
def Face.new (vertices : List V2) (pts : Nat × Nat) : Face × Bool :=
  match projectOriginSeg (vertices.getD pts.1 V2.zero) (vertices.getD pts.2 V2.zero) with
  | some proj => (Face.newWithProj vertices proj pts, true)
  | none => (Face.newWithProj vertices V2.zero pts, false)

/-- faceSignedDist is the signed distance of a face's supporting line from
the origin, measured along the face's outward normal at its first vertex:
the quantity `na::dot(face.normal, vertices[face.pts[0]])` the source
computes when keying the priority queue during initialization. -/
def faceSignedDist (vertices : List V2) (f : Face) : ℚ :=
  dot f.normal (vertices.getD f.pts.1 V2.zero)

/-- heapPop models `BinaryHeap::pop` on the face queue: it removes and
returns an element with the greatest `neg_dist` key (Rust's `BinaryHeap`
is a max-heap and `Ord for FaceId` compares `neg_dist`), the remaining
elements unchanged.  Among equal keys the element pushed latest is taken;
the source's heap leaves that tie unspecified and no result below depends
on it. -/
def heapPop : List FaceId → Option (FaceId × List FaceId)
  | [] => none
  | x :: xs =>
    match heapPop xs with
    | none => some (x, [])
    | some (m, rest) => if m.negDist ≤ x.negDist then some (x, xs) else some (m, x :: rest)

/-- heapPeek models `BinaryHeap::peek`: the element `heapPop` would return. -/
def heapPeek (l : List FaceId) : Option FaceId := (heapPop l).map Prod.fst

/-- FaceStep is the outcome of one pass of the `for f in new_faces` loop
body in `EPA2::project_origin`: an early `return Some(..)`, a `?`-style
early `return None`, or the updated face buffer and heap. -/
inductive FaceStep where
  | ret (p : V2) (n : V2)
  | fail
  | cont (faces : List Face) (heap : List FaceId)
deriving DecidableEq

/-- processNewFace embeds one pass of the `for f in new_faces` loop of
`EPA2::project_origin` (lines 262–277): when the origin projects inside
the new face, its distance is compared against the popped face's distance
(`return Some` on numerical inconsistency), a non-deleted face is keyed
into the heap through `FaceId::new` (whose `?` aborts the query), and the
face is appended to the face buffer. -/
def processNewFace (currDist : ℚ) (faces : List Face) (heap : List FaceId)
    (fb : Face × Bool) : FaceStep :=
  if fb.2 then
    let dist := dot fb.1.normal fb.1.proj
    if dist < currDist then FaceStep.ret fb.1.proj fb.1.normal
    else if fb.1.deleted then FaceStep.cont (faces ++ [fb.1]) heap
    else
      match FaceId.new faces.length (-dist) with
      | none => FaceStep.fail
      | some fid => FaceStep.cont (faces ++ [fb.1]) (fid :: heap)
  else FaceStep.cont (faces ++ [fb.1]) heap

theorem heapPop_length {l : List FaceId} {x : FaceId} {r : List FaceId}
    (h : heapPop l = some (x, r)) : r.length < l.length := by
  induction l generalizing x r with
  | nil => simp [heapPop] at h
  | cons a as ih =>
    rw [heapPop] at h
    rcases hm : heapPop as with _ | ⟨m, rest⟩ <;> rw [hm] at h <;> dsimp only at h
    · cases h
      simp
    · by_cases hle : m.negDist ≤ a.negDist
      · rw [if_pos hle] at h
        cases h
        simp
      · rw [if_neg hle] at h
        cases h
        have := ih hm
        simp only [List.length_cons]
        omega

/-- LoopOut is the outcome of one pass of the expansion loop body: an
early `return` (`done`), the `continue` of a lazily deleted face
(`skip`, next iteration on the popped heap), or the fall-through to the
next iteration with the updated state (`next`; the field `hcap` records
that the `niter > 10000` exit was not taken). -/
inductive LoopOut (niter : Nat) where
  | done (r : Option (V2 × V2))
  | skip
  | next (vertices : List V2) (faces : List Face) (heap : List FaceId)
      (maxDist : ℚ) (bestId : FaceId) (hcap : niter + 1 ≤ 10000)

/-- expansionStep embeds the body of the `while let Some(face_id) =
self.heap.pop()` loop of `EPA2::project_origin` (lines 228-284) for one
popped face id: skip deleted faces, query the support point along the
face normal, update the running upper bound `max_dist` and best face,
return on convergence within `_eps_tol`, split the face through the two
`processNewFace` passes (each able to return early or abort), and check
the 10000-iteration cap. -/
def expansionStep (support : V2 → V2) (vertices : List V2) (faces : List Face)
    (fid : FaceId) (heap1 : List FaceId) (niter : Nat) (maxDist : ℚ)
    (bestId : FaceId) : LoopOut niter :=
  let face := faces.getD fid.id Face.dummy
  if face.deleted then
    LoopOut.skip
  else
    let supportPoint := support face.normal
    let supportPointId := vertices.length
    let vertices1 := vertices ++ [supportPoint]
    let candidateMaxDist := dot supportPoint face.normal
    let maxDist1 := if candidateMaxDist < maxDist then candidateMaxDist else maxDist
    let bestId1 := if candidateMaxDist < maxDist then fid else bestId
    let currDist := -fid.negDist
    if maxDist1 - currDist < epsTol then
      LoopOut.done (some ((faces.getD bestId1.id Face.dummy).proj,
        (faces.getD bestId1.id Face.dummy).normal))
    else
      match processNewFace currDist faces heap1 (Face.new vertices1 (face.pts.1, supportPointId)) with
      | FaceStep.ret p n => LoopOut.done (some (p, n))
      | FaceStep.fail => LoopOut.done none
      | FaceStep.cont faces1 heap2 =>
        match processNewFace currDist faces1 heap2 (Face.new vertices1 (supportPointId, face.pts.2)) with
        | FaceStep.ret p n => LoopOut.done (some (p, n))
        | FaceStep.fail => LoopOut.done none
        | FaceStep.cont faces2 heap3 =>
          if hcap : 10000 < niter + 1 then LoopOut.done none
          else LoopOut.next vertices1 faces2 heap3 maxDist1 bestId1 (by omega)

/-- expansionLoop embeds the expansion loop of `EPA2::project_origin`
(lines 221-287), the mutable state threaded explicitly: while the heap
yields a face id, run the body; when the heap runs empty, return the best
face data (line 286). -/
def expansionLoop (support : V2 → V2) (vertices : List V2) (faces : List Face)
    (heap : List FaceId) (niter : Nat) (maxDist : ℚ) (bestId : FaceId) :
    Option (V2 × V2) :=
  match hpop : heapPop heap with
  | none =>
    some ((faces.getD bestId.id Face.dummy).proj, (faces.getD bestId.id Face.dummy).normal)
  | some (fid, heap1) =>
    match expansionStep support vertices faces fid heap1 niter maxDist bestId with
    | LoopOut.done r => r
    | LoopOut.skip => expansionLoop support vertices faces heap1 niter maxDist bestId
    | LoopOut.next v f hp md b _ => expansionLoop support v f hp (niter + 1) md b
termination_by (10001 - niter, heap.length)
decreasing_by
· exact Prod.Lex.right _ (heapPop_length hpop)
· rename_i hcap
  exact Prod.Lex.left _ _ (by omega)

/-- expansionLoop_pop rewrites one iteration of the loop. -/
theorem expansionLoop_pop {support : V2 → V2} {vertices : List V2} {faces : List Face}
    {heap heap1 : List FaceId} {niter : Nat} {maxDist : ℚ} {bestId fid : FaceId}
    (hpop : heapPop heap = some (fid, heap1)) :
    expansionLoop support vertices faces heap niter maxDist bestId =
      match expansionStep support vertices faces fid heap1 niter maxDist bestId with
      | LoopOut.done r => r
      | LoopOut.skip => expansionLoop support vertices faces heap1 niter maxDist bestId
      | LoopOut.next v f hp md b _ => expansionLoop support v f hp (niter + 1) md b := by
  conv_lhs => rw [expansionLoop]
  rw [hpop]

/-- expansionLoop_empty: an empty heap returns the best face data. -/
theorem expansionLoop_empty {support : V2 → V2} {vertices : List V2} {faces : List Face}
    {heap : List FaceId} {niter : Nat} {maxDist : ℚ} {bestId : FaceId}
    (hpop : heapPop heap = none) :
    expansionLoop support vertices faces heap niter maxDist bestId =
      some ((faces.getD bestId.id Face.dummy).proj,
        (faces.getD bestId.id Face.dummy).normal) := by
  conv_lhs => rw [expansionLoop]
  rw [hpop]

/-- triangleVerts is the vertex buffer after the orientation fix of the
`simplex.dimension() == 2` initialization: the last two vertices are
swapped when the triangle is clockwise (`perp2 < 0`). -/
def triangleVerts (simplex : List V2) : List V2 :=
  let v0 := simplex.getD 0 V2.zero
  let v1 := simplex.getD 1 V2.zero
  let v2 := simplex.getD 2 V2.zero
  if perp2 (v1 - v0) (v2 - v0) < 0 then [v0, v2, v1] else [v0, v1, v2]

/-- pushEntry is one conditional `self.heap.push(FaceId::new(idx, key)?)`
of the triangle initialization: no-op when the guard is false, `none`
(propagating the `?`) when `FaceId::new` refuses. -/
def pushEntry (heap : List FaceId) (cond : Bool) (idx : Nat) (key : ℚ) :
    Option (List FaceId) :=
  if cond then (FaceId.new idx key).map (· :: heap) else some heap

/-- initTriangle embeds lines 156–198 of `EPA2::project_origin`: orient the
triangle counter-clockwise, build the three edge faces, and key each edge
whose interior contains the origin's projection into the heap by the
negated distance — each push through `FaceId::new(..)?`, so one refusal
aborts the whole query with `none`. -/
def initTriangle (simplex : List V2) : Option (List V2 × List Face × List FaceId) :=
  let vs := triangleVerts simplex
  let f1 := Face.new vs (0, 1)
  let f2 := Face.new vs (1, 2)
  let f3 := Face.new vs (2, 0)
  let faces := [f1.1, f2.1, f3.1]
  let dist1 := dot f1.1.normal (vs.getD 0 V2.zero)
  let dist2 := dot f2.1.normal (vs.getD 1 V2.zero)
  let dist3 := dot f3.1.normal (vs.getD 2 V2.zero)
  match pushEntry [] f1.2 0 (-dist1) with
  | none => none
  | some h1 =>
    match pushEntry h1 f2.2 1 (-dist2) with
    | none => none
    | some h2 =>
      match pushEntry h2 f3.2 2 (-dist3) with
      | none => none
      | some h3 => some (vs, faces, h3)

/-- initSegment embeds lines 199–219 of `EPA2::project_origin` (the
degenerate two-vertex case): both oriented edges are built directly with
the origin as stored projection, and both are keyed into the heap —
note the source keys them by `dist`, not `-dist`. -/
def initSegment (simplex : List V2) : Option (List Face × List FaceId) :=
  let face1 := Face.newWithProj simplex V2.zero (0, 1)
  let face2 := Face.newWithProj simplex V2.zero (1, 0)
  let faces := [face1, face2]
  let dist1 := dot face1.normal (simplex.getD 0 V2.zero)
  let dist2 := dot face2.normal (simplex.getD 1 V2.zero)
  match FaceId.new 0 dist1 with
  | none => none
  | some fid1 =>
    match FaceId.new 1 dist2 with
    | none => none
    | some fid2 => some (faces, fid2 :: fid1 :: [])

/-- unwrapPanic is the panic of `self.heap.peek().unwrap()` on an empty
heap (line 223 of `epa2.rs`). -/
def unwrapPanic : Panic := ⟨"called Option::unwrap() on a None value"⟩

/-- projectOrigin embeds `EPA2::project_origin` end to end for a fresh
engine (`reset` clears all buffers, so the explicit-state embedding needs
no pre-state).  The simplex is its list of points
(`dimension() = length - 1`); the support map, with its isometry already
composed, is a function from directions to points.  `Except.error` is the
panic at the unchecked `peek().unwrap()`; `Except.ok none` is the
documented "no result". -/
def projectOrigin (support : V2 → V2) (simplex : List V2) :
    Except Panic (Option (V2 × V2)) :=
  if simplex.length - 1 = 0 then
    Except.ok (some (V2.zero, ⟨0, 1⟩))
  else if simplex.length - 1 = 2 then
    match initTriangle simplex with
    | none => Except.ok none
    | some (vs, faces, heap) =>
      match heapPeek heap with
      | none => Except.error unwrapPanic
      | some best => Except.ok (expansionLoop support vs faces heap 0 f64Max best)
  else
    match initSegment simplex with
    | none => Except.ok none
    | some (faces, heap) =>
      match heapPeek heap with
      | none => Except.error unwrapPanic
      | some best => Except.ok (expansionLoop support simplex faces heap 0 f64Max best)

/-!
Section: the any-against-any time-of-impact dispatcher
(`time_of_impact_internal/any_against_any.rs`).  Shape payloads, isometries,
velocities and the scalar are abstract type parameters; each specialized
routine of `time_of_impact_internal` lives in another module and is a
field of `ToiFns`.  A shape is embedded as its inspection descriptor
(`g.desc()`): the four optional capability views the router queries.
-/

/-- ShapeDesc embeds the capability view `entities::inspection::Shape::desc`
offers the router: `as_shape::<Ball>`, `as_shape::<Plane>`,
`as_support_map`, `as_composite_shape`, each an optional typed view. -/
structure ShapeDesc (B Pl S C : Type) where
  asBall : Option B
  asPlane : Option Pl
  asSupportMap : Option S
  asComposite : Option C

/-- ToiFns bundles the specialized time-of-impact routines the router
invokes, plus `m.translate(&na::origin())` extracting a transform's
translation; all are external to `any_against_any.rs`. -/
structure ToiFns (B Pl S C M V Sc : Type) where
  translateOrigin : M → V
  ballAgainstBall : V → V → B → V → V → B → Option Sc
  planeAgainstSupportMap : M → V → Pl → M → V → S → Option Sc
  supportMapAgainstPlane : M → V → S → M → V → Pl → Option Sc
  supportMapAgainstSupportMap : M → V → S → M → V → S → Option Sc
  compositeShapeAgainstAny : M → V → C → M → V → ShapeDesc B Pl S C → Option Sc
  anyAgainstCompositeShape : M → V → ShapeDesc B Pl S C → M → V → C → Option Sc

/-- noAlgorithmPanic is the `panic!` message of the router's final `else`
branch. -/
def noAlgorithmPanic : Panic :=
  ⟨"No algorithm known to compute a contact point between the given pair of shapes."⟩

/-- anyAgainstAny embeds `time_of_impact_internal::any_against_any`: the
`if let` chain over the two shapes' capability views, each arm returning
its routine's result directly, the final `else` a `panic!`. -/
def anyAgainstAny {B Pl S C M V Sc : Type} (F : ToiFns B Pl S C M V Sc)
    (m1 : M) (vel1 : V) (g1 : ShapeDesc B Pl S C)
    (m2 : M) (vel2 : V) (g2 : ShapeDesc B Pl S C) : Except Panic (Option Sc) :=
  match g1.asBall, g2.asBall with
  | some b1, some b2 =>
    Except.ok (F.ballAgainstBall (F.translateOrigin m1) vel1 b1 (F.translateOrigin m2) vel2 b2)
  | _, _ =>
    match g1.asPlane, g2.asSupportMap with
    | some p1, some s2 => Except.ok (F.planeAgainstSupportMap m1 vel1 p1 m2 vel2 s2)
    | _, _ =>
      match g1.asSupportMap, g2.asPlane with
      | some s1, some p2 => Except.ok (F.supportMapAgainstPlane m1 vel1 s1 m2 vel2 p2)
      | _, _ =>
        match g1.asSupportMap, g2.asSupportMap with
        | some s1, some s2 => Except.ok (F.supportMapAgainstSupportMap m1 vel1 s1 m2 vel2 s2)
        | _, _ =>
          match g1.asComposite with
          | some c1 => Except.ok (F.compositeShapeAgainstAny m1 vel1 c1 m2 vel2 g2)
          | none =>
            match g2.asComposite with
            | some c2 => Except.ok (F.anyAgainstCompositeShape m1 vel1 g1 m2 vel2 c2)
            | none => Except.error noAlgorithmPanic

/-- ToiPattern names the capability pattern the spec's fixed priority
order can select, with the payload views each arm extracts. -/
inductive ToiPattern (B Pl S C : Type) where
  | ballBall (b1 b2 : B)
  | planeSm (p1 : Pl) (s2 : S)
  | smPlane (s1 : S) (p2 : Pl)
  | smSm (s1 s2 : S)
  | compositeAny (c1 : C)
  | anyComposite (c2 : C)

/-- firstMatch is modelled from the spec's words, not from the source: the
fixed priority order «Ball/Ball → Plane/SupportMap (either order) →
SupportMap/SupportMap → Composite/Any (either order)», first matching
pattern winning. -/
def firstMatch {B Pl S C : Type} (g1 g2 : ShapeDesc B Pl S C) :
    Option (ToiPattern B Pl S C) :=
  match g1.asBall, g2.asBall with
  | some b1, some b2 => some (ToiPattern.ballBall b1 b2)
  | _, _ =>
    match g1.asPlane, g2.asSupportMap with
    | some p1, some s2 => some (ToiPattern.planeSm p1 s2)
    | _, _ =>
      match g1.asSupportMap, g2.asPlane with
      | some s1, some p2 => some (ToiPattern.smPlane s1 p2)
      | _, _ =>
        match g1.asSupportMap, g2.asSupportMap with
        | some s1, some s2 => some (ToiPattern.smSm s1 s2)
        | _, _ =>
          match g1.asComposite with
          | some c1 => some (ToiPattern.compositeAny c1)
          | none =>
            match g2.asComposite with
            | some c2 => some (ToiPattern.anyComposite c2)
            | none => none

/-- invokePattern is the specialized routine a pattern stands for, applied
to the posed shapes. -/
def invokePattern {B Pl S C M V Sc : Type} (F : ToiFns B Pl S C M V Sc)
    (m1 : M) (vel1 : V) (g1 : ShapeDesc B Pl S C)
    (m2 : M) (vel2 : V) (g2 : ShapeDesc B Pl S C) :
    ToiPattern B Pl S C → Option Sc
  | ToiPattern.ballBall b1 b2 =>
    F.ballAgainstBall (F.translateOrigin m1) vel1 b1 (F.translateOrigin m2) vel2 b2
  | ToiPattern.planeSm p1 s2 => F.planeAgainstSupportMap m1 vel1 p1 m2 vel2 s2
  | ToiPattern.smPlane s1 p2 => F.supportMapAgainstPlane m1 vel1 s1 m2 vel2 p2
  | ToiPattern.smSm s1 s2 => F.supportMapAgainstSupportMap m1 vel1 s1 m2 vel2 s2
  | ToiPattern.compositeAny c1 => F.compositeShapeAgainstAny m1 vel1 c1 m2 vel2 g2
  | ToiPattern.anyComposite c2 => F.anyAgainstCompositeShape m1 vel1 g1 m2 vel2 c2

/-!
Section: the persistent ball/ball proximity detector
(`ball_ball_proximity_detector.rs`).
-/

/-- Proximity embeds `queries::geometry::Proximity`. -/
inductive Proximity where
  | Intersecting
  | WithinMargin
  | Disjoint
deriving DecidableEq

/-- Ball embeds `entities::shape::Ball`. -/
structure Ball where
  radius : ℚ
deriving DecidableEq

/-- Iso2 embeds the isometry `M` through the only observation the detector
makes of it, `m.translate(&na::origin())` — exactly the isometry's
translation component. -/
structure Iso2 where
  translation : V2
deriving DecidableEq

def Iso2.translateOrigin (m : Iso2) : V2 := m.translation

/-- ShapeB embeds `entities::inspection::Shape` through the only capability
view this detector queries: `desc().as_shape::<Ball>()`. -/
structure ShapeB where
  asBall : Option Ball
deriving DecidableEq

/-- ballAgainstBall is modelled from the spec:
`proximity_internal::ball_against_ball` is not in the source excerpt.  Per
the spec the classification compares the center separation against the
combined radii and margin: with `sep = |c1-c2| - r1 - r2`, the result is
`Disjoint` iff `sep > margin`, `Intersecting` iff `sep < 0`, else
`WithinMargin`.  The comparisons are carried out on squares to stay in
exact arithmetic (equivalent for the non-negative radii and margins of the
data model). -/
def ballAgainstBall (p1 : V2) (b1 : Ball) (p2 : V2) (b2 : Ball) (margin : ℚ) :
    Proximity :=
  let d2 := normSq (p2 - p1)
  let sum := b1.radius + b2.radius
  if d2 < sum ^ 2 then Proximity.Intersecting
  else if (sum + margin) ^ 2 < d2 then Proximity.Disjoint
  else Proximity.WithinMargin

/-- BallBallProximityDetector embeds the detector's persistent state: the
stored `Proximity` value. -/
structure BallBallProximityDetector where
  proximity : Proximity
deriving DecidableEq

/-- BallBallProximityDetector.update embeds
`ProximityDetector::update for BallBallProximityDetector`: view both
shapes as balls; on success recompute through the closed-form ball/ball
routine, overwrite the stored value and return `true`; otherwise return
`false` with the state untouched.  The returned pair is (the Rust return
value, the detector state after the call). -/
def BallBallProximityDetector.update (self : BallBallProximityDetector)
    (ma : Iso2) (a : ShapeB) (mb : Iso2) (b : ShapeB) (margin : ℚ) :
    Bool × BallBallProximityDetector :=
  match a.asBall, b.asBall with
  | some ba, some bb =>
    (true, ⟨ballAgainstBall ma.translateOrigin ba mb.translateOrigin bb margin⟩)
  | _, _ => (false, self)

/-!
Section: the composite-shape distance entry point
(`distance_internal/composite_shape_against_any.rs`).
-/

/-- BVTree is modelled from the spec: the bounding-volume tree of
`entities::partitioning::BVT` (not in the source excerpt), a binary tree
whose leaves carry the composite shape's sub-part indices. -/
inductive BVTree (α : Type) where
  | leaf (data : α)
  | node (left right : BVTree α)

/-- BVTree.leaves lists a tree's leaf data, left to right. -/
def BVTree.leaves {α : Type} : BVTree α → List α
  | BVTree.leaf a => [a]
  | BVTree.node l r => BVTree.leaves l ++ BVTree.leaves r

/-- BVTree.minLeaf is the best-first search's result on a non-empty tree:
the leaf whose exact cost (`compute_b_cost`'s first component) is
minimal, paired with its user data (the second component).  Leaves whose
cost function refuses are skipped. -/
def BVTree.minLeaf {α : Type} (bCost : α → Option (ℚ × ℚ)) :
    BVTree α → Option (α × ℚ)
  | BVTree.leaf a =>
    match bCost a with
    | some c => some (a, c.2)
    | none => none
  | BVTree.node l r =>
    match BVTree.minLeaf bCost l, BVTree.minLeaf bCost r with
    | none, x => x
    | some y, none => some y
    | some (a1, c1), some (a2, c2) =>
      if c1 ≤ c2 then some (a1, c1) else some (a2, c2)

/-- BVTree.bestFirstSearch is modelled from the spec:
`BVT::best_first_search` (entities::partitioning, not in the source
excerpt).  Per the spec the branch-and-bound traversal's bounding-volume
costs are admissible lower bounds used only for pruning, and the search
returns the leaf minimizing the exact cost — «the first leaf value found
that is also the queue minimum is globally optimal», equal to the minimum
over brute-force evaluation of every leaf; an empty tree yields `None`. -/
def BVTree.bestFirstSearch {α : Type} (t : Option (BVTree α))
    (bCost : α → Option (ℚ × ℚ)) : Option (α × ℚ) :=
  match t with
  | none => none
  | some tree => BVTree.minLeaf bCost tree

/-- CompositeShape embeds `CompositeShape::bvt()`: a possibly empty
bounding-volume tree over sub-part data. -/
structure CompositeShape (α : Type) where
  bvt : Option (BVTree α)

/-- emptyCompositePanic is the `expect` message of
`composite_shape_against_any`. -/
def emptyCompositePanic : Panic := ⟨"The composite shape must not be empty."⟩

/-- compositeShapeAgainstAny embeds
`distance_internal::composite_shape_against_any`: run the best-first
search with the leaf cost `CompositeShapeAgainstAnyDistCostFn::
compute_b_cost` — the exact leaf distance, duplicated as `(cost,
user data)` — keep the user data, and `expect` it (panic on an empty
composite shape).  The recursive `distance_internal::distance` call on a
transformed leaf is the abstract `leafDist`. -/
def compositeShapeAgainstAny {α : Type} (g1 : CompositeShape α)
    (leafDist : α → ℚ) : Except Panic ℚ :=
  match (BVTree.bestFirstSearch g1.bvt (fun b => some (leafDist b, leafDist b))).map
      (fun r => r.2) with
  | some res => Except.ok res
  | none => Except.error emptyCompositePanic

/-!
Section: theorems.  Each claim C1–C10 of the specification review is
settled by exactly one theorem; shared helper lemmas precede them.
-/

/-- C1: for every pair of posed shapes, the any-against-any time-of-impact
router inspects the capabilities in the fixed priority order Ball/Ball →
Plane/SupportMap → SupportMap/Plane → SupportMap/SupportMap →
Composite/Any → Any/Composite, and the first matching pattern's
specialized routine is invoked with its result returned directly; no
other algorithm is consulted (the spec-side `firstMatch` selector fully
determines the router's behaviour). -/
theorem toi_dispatch_first_match_wins {B Pl S C M V Sc : Type}
    (F : ToiFns B Pl S C M V Sc) (m1 : M) (vel1 : V) (g1 : ShapeDesc B Pl S C)
    (m2 : M) (vel2 : V) (g2 : ShapeDesc B Pl S C) :
    anyAgainstAny F m1 vel1 g1 m2 vel2 g2 =
      match firstMatch g1 g2 with
      | some pat => Except.ok (invokePattern F m1 vel1 g1 m2 vel2 g2 pat)
      | none => Except.error noAlgorithmPanic := by
  obtain ⟨b1, p1, s1, c1⟩ := g1
  obtain ⟨b2, p2, s2, c2⟩ := g2
  cases b1 <;> cases b2 <;> cases p1 <;> cases s2 <;> cases s1 <;> cases p2 <;>
    cases c1 <;> cases c2 <;> rfl

/-- toiFnsU instantiates the routine bundle trivially (payloads `Unit`,
every routine `none`) for concrete dispatch computations. -/
def toiFnsU : ToiFns Unit Unit Unit Unit Unit Unit Unit :=
  ⟨fun _ => (), fun _ _ _ _ _ _ => none, fun _ _ _ _ _ _ => none,
   fun _ _ _ _ _ _ => none, fun _ _ _ _ _ _ => none,
   fun _ _ _ _ _ _ => none, fun _ _ _ _ _ _ => none⟩

/-- descU is a shape description with no capability at all: no dispatcher
pattern can match it. -/
def descU : ShapeDesc Unit Unit Unit Unit := ⟨none, none, none, none⟩

/-- C2 (counterexample): on a shape pair with no matching capability
pattern, the router does not report a typed error value to the caller —
it panics (the modelled `panic!` of line 46, aborting the process) with
the "No algorithm known…" message. -/
theorem toi_dispatch_no_match_panic_cex :
    anyAgainstAny toiFnsU () () descU () () descU = Except.error noAlgorithmPanic := rfl

/-- C2 (amended): when no capability pattern matches for the given shape
pair, `any_against_any` panics with the message "No algorithm known to
compute a contact point between the given pair of shapes.", terminating
the process, rather than reporting a typed "unsupported shape
combination" error to the caller. -/
theorem toi_dispatch_no_match_panics {B Pl S C M V Sc : Type}
    (F : ToiFns B Pl S C M V Sc) (m1 : M) (vel1 : V) (g1 : ShapeDesc B Pl S C)
    (m2 : M) (vel2 : V) (g2 : ShapeDesc B Pl S C)
    (h : firstMatch g1 g2 = none) :
    anyAgainstAny F m1 vel1 g1 m2 vel2 g2 = Except.error noAlgorithmPanic := by
  obtain ⟨b1, p1, s1, c1⟩ := g1
  obtain ⟨b2, p2, s2, c2⟩ := g2
  cases b1 <;> cases b2 <;> cases p1 <;> cases s2 <;> cases s1 <;> cases p2 <;>
    cases c1 <;> cases c2 <;> first
    | rfl
    | simp [firstMatch] at h

/-- Witness for the amended C2: the capability-free pair panics. -/
theorem toi_dispatch_no_match_panics_witness :
    anyAgainstAny toiFnsU () () descU () () descU = Except.error noAlgorithmPanic :=
  toi_dispatch_no_match_panics toiFnsU () () descU () () descU rfl

/-- C8: the ball/ball persistent proximity detector's `update` returns
`false` and leaves the stored `Proximity` value exactly unchanged when at
least one shape is not a ball; when both are balls it recomputes the
proximity through the closed-form ball/ball routine, overwrites the
stored value and returns `true`. -/
theorem ball_ball_update_gating :
    (∀ (st : BallBallProximityDetector) (ma : Iso2) (a : ShapeB) (mb : Iso2)
       (b : ShapeB) (margin : ℚ),
        a.asBall = none ∨ b.asBall = none →
        BallBallProximityDetector.update st ma a mb b margin = (false, st)) ∧
    (∀ (st : BallBallProximityDetector) (ma : Iso2) (a : ShapeB) (mb : Iso2)
       (b : ShapeB) (margin : ℚ) (ba bb : Ball),
        a.asBall = some ba → b.asBall = some bb →
        BallBallProximityDetector.update st ma a mb b margin =
          (true, ⟨ballAgainstBall ma.translateOrigin ba mb.translateOrigin bb margin⟩)) := by
  constructor
  · rintro st ma ⟨aB⟩ mb ⟨bB⟩ margin (h | h) <;> subst h
    · cases bB <;> rfl
    · cases aB <;> rfl
  · rintro st ma ⟨aB⟩ mb ⟨bB⟩ margin ba bb hA hB
    simp only at hA hB
    subst hA
    subst hB
    rfl

/-- Witness for C8: a non-ball first shape leaves the stored `Disjoint`
untouched and reports `false`; two unit balls at distance 3 recompute and
report `true` (storing the spec's concrete `Disjoint` case). -/
theorem ball_ball_update_gating_witness :
    BallBallProximityDetector.update ⟨Proximity.Intersecting⟩ ⟨⟨0, 0⟩⟩ ⟨none⟩
        ⟨⟨3, 0⟩⟩ ⟨some ⟨1⟩⟩ 0 = (false, ⟨Proximity.Intersecting⟩) ∧
    BallBallProximityDetector.update ⟨Proximity.Intersecting⟩ ⟨⟨0, 0⟩⟩ ⟨some ⟨1⟩⟩
        ⟨⟨3, 0⟩⟩ ⟨some ⟨1⟩⟩ 0 =
      (true, ⟨ballAgainstBall ⟨0, 0⟩ ⟨1⟩ ⟨3, 0⟩ ⟨1⟩ 0⟩) :=
  ⟨ball_ball_update_gating.1 _ _ _ _ _ _ (Or.inl rfl),
   ball_ball_update_gating.2 _ _ _ _ _ _ _ _ rfl rfl⟩

theorem minLeaf_total_mem {α : Type} (c : α → ℚ) (t : BVTree α) :
    ∃ a, a ∈ t.leaves ∧ BVTree.minLeaf (fun b => some (c b, c b)) t = some (a, c a) := by
  induction t with
  | leaf a => exact ⟨a, by simp [BVTree.leaves], by simp [BVTree.minLeaf]⟩
  | node l r ihl ihr =>
    obtain ⟨a1, hm1, he1⟩ := ihl
    obtain ⟨a2, hm2, he2⟩ := ihr
    by_cases hle : c a1 ≤ c a2
    · refine ⟨a1, ?_, ?_⟩
      · simp [BVTree.leaves, hm1]
      · rw [BVTree.minLeaf, he1, he2]
        dsimp only
        rw [if_pos hle]
    · refine ⟨a2, ?_, ?_⟩
      · simp [BVTree.leaves, hm2]
      · rw [BVTree.minLeaf, he1, he2]
        dsimp only
        rw [if_neg hle]

/-- C9: the best-first composite-shape distance query panics (`expect`,
modelled as the `Except.error` contract violation) on an empty composite
shape rather than returning a sentinel distance, and on a non-empty
composite shape it returns the exact distance of one of the tree's
leaves. -/
theorem composite_distance_empty_fails_nonempty_leaf :
    (∀ (α : Type) (g1 : CompositeShape α) (leafDist : α → ℚ),
        g1.bvt = none →
        compositeShapeAgainstAny g1 leafDist = Except.error emptyCompositePanic) ∧
    (∀ (α : Type) (g1 : CompositeShape α) (leafDist : α → ℚ) (t : BVTree α),
        g1.bvt = some t →
        ∃ a, a ∈ t.leaves ∧
          compositeShapeAgainstAny g1 leafDist = Except.ok (leafDist a)) := by
  constructor
  · intro α g1 ld h
    simp [compositeShapeAgainstAny, BVTree.bestFirstSearch, h]
  · intro α g1 ld t h
    obtain ⟨a, hm, he⟩ := minLeaf_total_mem ld t
    refine ⟨a, hm, ?_⟩
    simp [compositeShapeAgainstAny, BVTree.bestFirstSearch, h, he]

/-- treeW is a concrete three-leaf bounding-volume tree. -/
def treeW : BVTree Nat :=
  BVTree.node (BVTree.leaf 3) (BVTree.node (BVTree.leaf 1) (BVTree.leaf 2))

/-- Witness for C9: the empty composite shape panics, and the three-leaf
tree returns one of its leaves' distances. -/
theorem composite_distance_witness :
    compositeShapeAgainstAny (⟨none⟩ : CompositeShape Nat) (fun n => (n : ℚ)) =
        Except.error emptyCompositePanic ∧
    ∃ a, a ∈ treeW.leaves ∧
      compositeShapeAgainstAny ⟨some treeW⟩ (fun n => (n : ℚ)) = Except.ok ((a : ℕ) : ℚ) :=
  ⟨composite_distance_empty_fails_nonempty_leaf.1 Nat _ _ rfl,
   composite_distance_empty_fails_nonempty_leaf.2 Nat _ _ treeW rfl⟩

theorem V2.sub_def (a b : V2) : a - b = ⟨a.x - b.x, a.y - b.y⟩ := rfl

theorem V2.neg_def (a : V2) : -a = ⟨-a.x, -a.y⟩ := rfl

theorem dot_zero_left (v : V2) : dot V2.zero v = 0 := by
  simp [dot, V2.zero]

theorem FaceId.new_refused {i : Nat} {negd : ℚ} (h : epsTol < negd) :
    FaceId.new i negd = none := by
  rw [FaceId.new, if_pos h]

theorem pushEntry_refused {heap : List FaceId} {idx : Nat} {key : ℚ}
    (hc : epsTol < key) : pushEntry heap true idx key = none := by
  rw [pushEntry, if_pos rfl, FaceId.new_refused hc]
  rfl

theorem projectOrigin_dim2 (support : V2 → V2) (simplex : List V2)
    (h : simplex.length = 3) :
    projectOrigin support simplex =
      match initTriangle simplex with
      | none => Except.ok none
      | some (vs, faces, heap) =>
        match heapPeek heap with
        | none => Except.error unwrapPanic
        | some best => Except.ok (expansionLoop support vs faces heap 0 f64Max best) := by
  rw [projectOrigin, h]
  norm_num

/-- initTriangle_entry_refused: whenever one of the three initialization
faces has the origin's projection inside it but its negated distance is
past the tolerance, the corresponding `FaceId::new(..)?` refuses, so the
triangle initialization — and with it the whole `project_origin` query —
returns `none` (not a panic). -/
theorem initTriangle_entry_refused {support : V2 → V2} {simplex vs : List V2}
    {fb1 fb2 fb3 : Face × Bool} {d1 d2 d3 : ℚ}
    (hlen : simplex.length = 3)
    (hvs : triangleVerts simplex = vs)
    (hf1 : Face.new vs (0, 1) = fb1) (hf2 : Face.new vs (1, 2) = fb2)
    (hf3 : Face.new vs (2, 0) = fb3)
    (hd1 : dot fb1.1.normal (vs.getD 0 V2.zero) = d1)
    (hd2 : dot fb2.1.normal (vs.getD 1 V2.zero) = d2)
    (hd3 : dot fb3.1.normal (vs.getD 2 V2.zero) = d3)
    (hcase : (fb1.2 = true ∧ epsTol < -d1) ∨ (fb2.2 = true ∧ epsTol < -d2) ∨
      (fb3.2 = true ∧ epsTol < -d3)) :
    initTriangle simplex = none ∧ projectOrigin support simplex = Except.ok none := by
  have hinit : initTriangle simplex = none := by
    delta initTriangle
    rw [hvs]
    dsimp only
    rw [hf1, hf2, hf3, hd1, hd2, hd3]
    rcases hcase with ⟨ht, hgt⟩ | ⟨ht, hgt⟩ | ⟨ht, hgt⟩
    · rw [ht, pushEntry_refused hgt]
    · rcases hp1 : pushEntry [] fb1.2 0 (-d1) with _ | h1
      · rfl
      · dsimp only
        rw [ht, pushEntry_refused hgt]
    · rcases hp1 : pushEntry [] fb1.2 0 (-d1) with _ | h1
      · rfl
      · dsimp only
        rcases hp2 : pushEntry h1 fb2.2 1 (-d2) with _ | h2
        · rfl
        · dsimp only
          rw [ht, pushEntry_refused hgt]
  refine ⟨hinit, ?_⟩
  rw [projectOrigin_dim2 support simplex hlen, hinit]

/-- C6: whenever a face's (negated) distance at priority-queue-entry
construction time exceeds the positive tolerance past zero,
`FaceId::new` yields no entry, and — through the `?` operator on the
initialization pushes — `project_origin` returns no result (`Ok none`,
not a panic) for the whole query. -/
theorem epa_entry_construction_refusal_aborts_query :
    (∀ (i : Nat) (negd : ℚ), FaceId.new i negd = none ↔ epsTol < negd) ∧
    (∀ (support : V2 → V2) (simplex vs : List V2) (fb1 fb2 fb3 : Face × Bool)
       (d1 d2 d3 : ℚ),
        simplex.length = 3 →
        triangleVerts simplex = vs →
        Face.new vs (0, 1) = fb1 → Face.new vs (1, 2) = fb2 →
        Face.new vs (2, 0) = fb3 →
        dot fb1.1.normal (vs.getD 0 V2.zero) = d1 →
        dot fb2.1.normal (vs.getD 1 V2.zero) = d2 →
        dot fb3.1.normal (vs.getD 2 V2.zero) = d3 →
        (fb1.2 = true ∧ epsTol < -d1) ∨ (fb2.2 = true ∧ epsTol < -d2) ∨
          (fb3.2 = true ∧ epsTol < -d3) →
        initTriangle simplex = none ∧ projectOrigin support simplex = Except.ok none) := by
  constructor
  · intro i negd
    constructor
    · intro h
      by_contra hc
      rw [FaceId.new, if_neg hc] at h
      exact Option.noConfusion h
    · intro h
      exact FaceId.new_refused h
  · intro support simplex vs fb1 fb2 fb3 d1 d2 d3 hlen hvs hf1 hf2 hf3 hd1 hd2 hd3 hcase
    exact initTriangle_entry_refused hlen hvs hf1 hf2 hf3 hd1 hd2 hd3 hcase

set_option maxRecDepth 4000 in
/-- Witness for C6: on the triangle `(-1,2), (1,2), (0,9)` (origin outside,
below the first edge) the first edge contains the origin's projection and
its negated distance `2` is past the tolerance, so the whole query yields
`Ok none`; and `FaceId.new 5 1 = none` since `1 > eps_tol`. -/
theorem epa_entry_construction_refusal_witness :
    (FaceId.new 5 1 = none) ∧
    initTriangle [⟨-1, 2⟩, ⟨1, 2⟩, ⟨0, 9⟩] = none ∧
    projectOrigin (fun _ => V2.zero) [⟨-1, 2⟩, ⟨1, 2⟩, ⟨0, 9⟩] = Except.ok none := by
  have hvs : triangleVerts [⟨-1, 2⟩, ⟨1, 2⟩, ⟨0, 9⟩] = [⟨-1, 2⟩, ⟨1, 2⟩, ⟨0, 9⟩] := by
    norm_num [triangleVerts, perp2, V2.sub_def, List.getD_cons_zero, List.getD_cons_succ]
  have hf1 : Face.new [(⟨-1, 2⟩ : V2), ⟨1, 2⟩, ⟨0, 9⟩] (0, 1) =
      (⟨(0, 1), ⟨0, -1⟩, ⟨0, 2⟩, false⟩, true) := by
    norm_num [Face.new, Face.newWithProj, projectOriginSeg, ccwFaceNormal, ratSqrt,
      natSqrt, sqrtAux, dot, perp2, normSq, epsTol, V2.zero, V2.sub_def, V2.neg_def,
      List.getD_cons_zero, List.getD_cons_succ]
  have hf2 : Face.new [(⟨-1, 2⟩ : V2), ⟨1, 2⟩, ⟨0, 9⟩] (1, 2) =
      (⟨(1, 2), V2.zero, V2.zero, true⟩, false) := by
    norm_num [Face.new, Face.newWithProj, projectOriginSeg, ccwFaceNormal, ratSqrt,
      natSqrt, sqrtAux, dot, perp2, normSq, epsTol, V2.zero, V2.sub_def, V2.neg_def,
      List.getD_cons_zero, List.getD_cons_succ]
  have hf3 : Face.new [(⟨-1, 2⟩ : V2), ⟨1, 2⟩, ⟨0, 9⟩] (2, 0) =
      (⟨(2, 0), V2.zero, V2.zero, true⟩, false) := by
    norm_num [Face.new, Face.newWithProj, projectOriginSeg, ccwFaceNormal, ratSqrt,
      natSqrt, sqrtAux, dot, perp2, normSq, epsTol, V2.zero, V2.sub_def, V2.neg_def,
      List.getD_cons_zero, List.getD_cons_succ]
  have hd1 : dot (⟨0, -1⟩ : V2) ([(⟨-1, 2⟩ : V2), ⟨1, 2⟩, ⟨0, 9⟩].getD 0 V2.zero) = -2 := by
    norm_num [dot, List.getD_cons_zero]
  have hd2 : dot V2.zero ([(⟨-1, 2⟩ : V2), ⟨1, 2⟩, ⟨0, 9⟩].getD 1 V2.zero) = 0 :=
    dot_zero_left _
  have hd3 : dot V2.zero ([(⟨-1, 2⟩ : V2), ⟨1, 2⟩, ⟨0, 9⟩].getD 2 V2.zero) = 0 :=
    dot_zero_left _
  refine ⟨(epa_entry_construction_refusal_aborts_query.1 5 1).2 (by norm_num [epsTol]), ?_⟩
  exact epa_entry_construction_refusal_aborts_query.2 (fun _ => V2.zero)
    [⟨-1, 2⟩, ⟨1, 2⟩, ⟨0, 9⟩] [⟨-1, 2⟩, ⟨1, 2⟩, ⟨0, 9⟩]
    (⟨(0, 1), ⟨0, -1⟩, ⟨0, 2⟩, false⟩, true)
    (⟨(1, 2), V2.zero, V2.zero, true⟩, false)
    (⟨(2, 0), V2.zero, V2.zero, true⟩, false)
    (-2) 0 0 rfl hvs hf1 hf2 hf3 hd1 hd2 hd3
    (Or.inl ⟨rfl, by norm_num [epsTol]⟩)

/-- C10 (counterexample): on the triangle `(-1,2), (1,2), (0,5)` the first
edge contains the origin's projection, its pushed distance check
short-circuits (`FaceId::new(..)?` refuses), so no face is pushed — yet
`project_origin` returns `Ok none`, not the claimed panic. -/
theorem epa_empty_heap_panic_cex :
    initTriangle [⟨-1, 2⟩, ⟨1, 2⟩, ⟨0, 5⟩] = none ∧
    projectOrigin (fun _ => V2.zero) [⟨-1, 2⟩, ⟨1, 2⟩, ⟨0, 5⟩] = Except.ok none ∧
    (Except.ok (none : Option (V2 × V2)) : Except Panic (Option (V2 × V2))) ≠
      Except.error unwrapPanic := by
  have hvs : triangleVerts [⟨-1, 2⟩, ⟨1, 2⟩, ⟨0, 5⟩] = [⟨-1, 2⟩, ⟨1, 2⟩, ⟨0, 5⟩] := by
    norm_num [triangleVerts, perp2, V2.sub_def, List.getD_cons_zero, List.getD_cons_succ]
  have hf1 : Face.new [(⟨-1, 2⟩ : V2), ⟨1, 2⟩, ⟨0, 5⟩] (0, 1) =
      (⟨(0, 1), ⟨0, -1⟩, ⟨0, 2⟩, false⟩, true) := by
    norm_num [Face.new, Face.newWithProj, projectOriginSeg, ccwFaceNormal, ratSqrt,
      natSqrt, sqrtAux, dot, perp2, normSq, epsTol, V2.zero, V2.sub_def, V2.neg_def,
      List.getD_cons_zero, List.getD_cons_succ]
  have hf2 : Face.new [(⟨-1, 2⟩ : V2), ⟨1, 2⟩, ⟨0, 5⟩] (1, 2) =
      (⟨(1, 2), V2.zero, V2.zero, true⟩, false) := by
    norm_num [Face.new, Face.newWithProj, projectOriginSeg, ccwFaceNormal, ratSqrt,
      natSqrt, sqrtAux, dot, perp2, normSq, epsTol, V2.zero, V2.sub_def, V2.neg_def,
      List.getD_cons_zero, List.getD_cons_succ]
  have hf3 : Face.new [(⟨-1, 2⟩ : V2), ⟨1, 2⟩, ⟨0, 5⟩] (2, 0) =
      (⟨(2, 0), V2.zero, V2.zero, true⟩, false) := by
    norm_num [Face.new, Face.newWithProj, projectOriginSeg, ccwFaceNormal, ratSqrt,
      natSqrt, sqrtAux, dot, perp2, normSq, epsTol, V2.zero, V2.sub_def, V2.neg_def,
      List.getD_cons_zero, List.getD_cons_succ]
  have hd1 : dot (⟨0, -1⟩ : V2) ([(⟨-1, 2⟩ : V2), ⟨1, 2⟩, ⟨0, 5⟩].getD 0 V2.zero) = -2 := by
    norm_num [dot, List.getD_cons_zero]
  have hd2 : dot V2.zero ([(⟨-1, 2⟩ : V2), ⟨1, 2⟩, ⟨0, 5⟩].getD 1 V2.zero) = 0 :=
    dot_zero_left _
  have hd3 : dot V2.zero ([(⟨-1, 2⟩ : V2), ⟨1, 2⟩, ⟨0, 5⟩].getD 2 V2.zero) = 0 :=
    dot_zero_left _
  have h := @initTriangle_entry_refused (fun _ => V2.zero)
    [⟨-1, 2⟩, ⟨1, 2⟩, ⟨0, 5⟩] [⟨-1, 2⟩, ⟨1, 2⟩, ⟨0, 5⟩]
    (⟨(0, 1), ⟨0, -1⟩, ⟨0, 2⟩, false⟩, true)
    (⟨(1, 2), V2.zero, V2.zero, true⟩, false)
    (⟨(2, 0), V2.zero, V2.zero, true⟩, false)
    (-2) 0 0 rfl hvs hf1 hf2 hf3
    hd1 hd2 hd3 (Or.inl ⟨rfl, by norm_num [epsTol]⟩)
  exact ⟨h.1, h.2, fun hc => Except.noConfusion hc⟩

/-- C10 (amended): if initialization from a 2-dimensional simplex completes
its pushes without a short-circuit yet pushes no face onto the priority
queue (the origin's projection onto every initial edge falls outside that
edge), `project_origin` panics on unwrapping the peek of the empty heap
rather than returning `None`; when a pushed distance check short-circuits
instead, the query returns `None` before ever reaching the peek. -/
theorem epa_empty_heap_peek_unwrap_panics :
    (∀ (support : V2 → V2) (simplex vs : List V2) (faces : List Face),
        simplex.length = 3 → initTriangle simplex = some (vs, faces, []) →
        projectOrigin support simplex = Except.error unwrapPanic) ∧
    (∀ (support : V2 → V2) (simplex : List V2),
        simplex.length = 3 → initTriangle simplex = none →
        projectOrigin support simplex = Except.ok none) := by
  constructor
  · intro support simplex vs faces hlen hinit
    rw [projectOrigin_dim2 support simplex hlen, hinit]
    rfl
  · intro support simplex hlen hinit
    rw [projectOrigin_dim2 support simplex hlen, hinit]

/-- Witness for the amended C10: the degenerate triangle with all three
vertices `(1,0)` has every edge zero-length, every origin-projection
falls outside (the projection helper refuses degenerate segments),
nothing is pushed, and `project_origin` panics at the peek. -/
theorem epa_empty_heap_peek_unwrap_panics_witness :
    projectOrigin (fun _ => V2.zero) [⟨1, 0⟩, ⟨1, 0⟩, ⟨1, 0⟩] =
      Except.error unwrapPanic := by
  have hvs : triangleVerts [⟨1, 0⟩, ⟨1, 0⟩, ⟨1, 0⟩] = [⟨1, 0⟩, ⟨1, 0⟩, ⟨1, 0⟩] := by
    norm_num [triangleVerts, perp2, V2.sub_def, List.getD_cons_zero, List.getD_cons_succ]
  have hf1 : Face.new [(⟨1, 0⟩ : V2), ⟨1, 0⟩, ⟨1, 0⟩] (0, 1) =
      (⟨(0, 1), V2.zero, V2.zero, true⟩, false) := by
    norm_num [Face.new, Face.newWithProj, projectOriginSeg, ccwFaceNormal, ratSqrt,
      natSqrt, sqrtAux, dot, perp2, normSq, V2.zero, V2.sub_def, V2.neg_def,
      List.getD_cons_zero, List.getD_cons_succ]
  have hf2 : Face.new [(⟨1, 0⟩ : V2), ⟨1, 0⟩, ⟨1, 0⟩] (1, 2) =
      (⟨(1, 2), V2.zero, V2.zero, true⟩, false) := by
    norm_num [Face.new, Face.newWithProj, projectOriginSeg, ccwFaceNormal, ratSqrt,
      natSqrt, sqrtAux, dot, perp2, normSq, V2.zero, V2.sub_def, V2.neg_def,
      List.getD_cons_zero, List.getD_cons_succ]
  have hf3 : Face.new [(⟨1, 0⟩ : V2), ⟨1, 0⟩, ⟨1, 0⟩] (2, 0) =
      (⟨(2, 0), V2.zero, V2.zero, true⟩, false) := by
    norm_num [Face.new, Face.newWithProj, projectOriginSeg, ccwFaceNormal, ratSqrt,
      natSqrt, sqrtAux, dot, perp2, normSq, V2.zero, V2.sub_def, V2.neg_def,
      List.getD_cons_zero, List.getD_cons_succ]
  have hinit : initTriangle [⟨1, 0⟩, ⟨1, 0⟩, ⟨1, 0⟩] =
      some ([⟨1, 0⟩, ⟨1, 0⟩, ⟨1, 0⟩],
        [⟨(0, 1), V2.zero, V2.zero, true⟩, ⟨(1, 2), V2.zero, V2.zero, true⟩,
          ⟨(2, 0), V2.zero, V2.zero, true⟩], []) := by
    delta initTriangle
    rw [hvs]
    dsimp only
    rw [hf1, hf2, hf3]
    dsimp only
    norm_num [pushEntry]
  exact epa_empty_heap_peek_unwrap_panics.1 (fun _ => V2.zero) _ _ _ rfl hinit

theorem expansionStep_not_deleted {support : V2 → V2} {vertices : List V2}
    {faces : List Face} {fid : FaceId} {heap1 : List FaceId} {niter : Nat}
    {maxDist : ℚ} {bestId : FaceId} {face : Face}
    (hface : faces.getD fid.id Face.dummy = face) (hdel : face.deleted = false) :
    expansionStep support vertices faces fid heap1 niter maxDist bestId =
      (if (if dot (support face.normal) face.normal < maxDist
            then dot (support face.normal) face.normal else maxDist) - -fid.negDist < epsTol then
        LoopOut.done (some
          ((faces.getD (if dot (support face.normal) face.normal < maxDist
              then fid else bestId).id Face.dummy).proj,
           (faces.getD (if dot (support face.normal) face.normal < maxDist
              then fid else bestId).id Face.dummy).normal))
      else
        match processNewFace (-fid.negDist) faces heap1
            (Face.new (vertices ++ [support face.normal]) (face.pts.1, vertices.length)) with
        | FaceStep.ret p n => LoopOut.done (some (p, n))
        | FaceStep.fail => LoopOut.done none
        | FaceStep.cont faces1 heap2 =>
          match processNewFace (-fid.negDist) faces1 heap2
              (Face.new (vertices ++ [support face.normal]) (vertices.length, face.pts.2)) with
          | FaceStep.ret p n => LoopOut.done (some (p, n))
          | FaceStep.fail => LoopOut.done none
          | FaceStep.cont faces2 heap3 =>
            if hcap : 10000 < niter + 1 then LoopOut.done none
            else LoopOut.next (vertices ++ [support face.normal]) faces2 heap3
              (if dot (support face.normal) face.normal < maxDist
                then dot (support face.normal) face.normal else maxDist)
              (if dot (support face.normal) face.normal < maxDist then fid else bestId)
              (by omega)) := by
  rw [expansionStep]
  dsimp only
  rw [hface, hdel]
  simp only [Bool.false_eq_true, if_false]

/-- C3: in every iteration of the expansion loop on a non-deleted popped
face, `max_dist` is updated to the minimum of its previous value and the
new support-point projection distance — so, by the induction the
hypothesis `hseen` carries, it remains the smallest projection distance
seen across all processed faces, starting from `f64::MAX` — and whenever
the updated `max_dist` minus the popped face's own distance falls below
the tolerance `eps_tol`, the loop terminates returning the best face's
projected point and outward normal. -/
theorem epa_max_dist_tracks_min_then_converges
    (support : V2 → V2) (vertices : List V2) (faces : List Face)
    (heap heap1 : List FaceId) (niter : Nat) (maxDist : ℚ) (bestId fid : FaceId)
    (face : Face) (cand maxDist1 : ℚ) (bestId1 : FaceId) (seen : List ℚ)
    (hpop : heapPop heap = some (fid, heap1))
    (hface : faces.getD fid.id Face.dummy = face)
    (hdel : face.deleted = false)
    (hcand : dot (support face.normal) face.normal = cand)
    (hmax1 : (if cand < maxDist then cand else maxDist) = maxDist1)
    (hbest1 : (if cand < maxDist then fid else bestId) = bestId1)
    (hseen : maxDist = seen.foldl min f64Max) :
    maxDist1 = (seen ++ [cand]).foldl min f64Max ∧
    (maxDist1 - (-fid.negDist) < epsTol →
      expansionLoop support vertices faces heap niter maxDist bestId =
        some ((faces.getD bestId1.id Face.dummy).proj,
          (faces.getD bestId1.id Face.dummy).normal)) := by
  constructor
  · rw [List.foldl_append]
    rw [← hseen]
    simp only [List.foldl_cons, List.foldl_nil]
    rw [← hmax1]
    by_cases hlt : cand < maxDist
    · rw [if_pos hlt, min_def, if_neg (by linarith)]
    · rw [if_neg hlt, min_def, if_pos (by linarith)]
  · intro hconv
    rw [expansionLoop_pop hpop, expansionStep_not_deleted hface hdel]
    rw [hcand, hmax1, hbest1, if_pos hconv]

set_option maxRecDepth 4000 in
/-- Witness for C3: one face at distance 1 (the segment `x = 1` against
the origin), support point `(1,0)` at projection distance 1: the updated
`max_dist` is `min f64::MAX 1 = 1`, the gap `1 - 1 = 0` is below the
tolerance, and the loop returns the best face's projection `(1,0)` and
normal `(1,0)`. -/
theorem epa_max_dist_tracks_min_then_converges_witness :
    (1 : ℚ) = ([] ++ [(1 : ℚ)]).foldl min f64Max ∧
    ((1 : ℚ) - (-(FaceId.mk 0 (-1)).negDist) < epsTol →
      expansionLoop (fun _ => ⟨1, 0⟩) [⟨1, -1⟩, ⟨1, 1⟩]
          [⟨(0, 1), ⟨1, 0⟩, ⟨1, 0⟩, false⟩] [⟨0, -1⟩] 0 f64Max ⟨0, -1⟩ =
        some (([⟨(0, 1), ⟨1, 0⟩, ⟨1, 0⟩, false⟩].getD (FaceId.mk 0 (-1)).id Face.dummy).proj,
          ([⟨(0, 1), ⟨1, 0⟩, ⟨1, 0⟩, false⟩].getD (FaceId.mk 0 (-1)).id Face.dummy).normal)) :=
  epa_max_dist_tracks_min_then_converges (fun _ => ⟨1, 0⟩) [⟨1, -1⟩, ⟨1, 1⟩]
    [⟨(0, 1), ⟨1, 0⟩, ⟨1, 0⟩, false⟩] [⟨0, -1⟩] [] 0 f64Max ⟨0, -1⟩ ⟨0, -1⟩
    ⟨(0, 1), ⟨1, 0⟩, ⟨1, 0⟩, false⟩ 1 1 ⟨0, -1⟩ []
    rfl rfl rfl (by norm_num [dot]) (by norm_num [f64Max]) (by norm_num [f64Max]) rfl

/-- C5: in any iteration state where the popped face is live, the
convergence test fails, both face splits fall through, and the iteration
counter has already reached 10000, the expansion loop stops and returns
`none` instead of looping further. -/
theorem epa_iteration_cap_returns_none
    (support : V2 → V2) (vertices : List V2) (faces faces1 faces2 : List Face)
    (heap heap1 heap2 heap3 : List FaceId) (niter : Nat) (maxDist : ℚ)
    (bestId fid : FaceId) (face : Face) (cand maxDist1 : ℚ)
    (hpop : heapPop heap = some (fid, heap1))
    (hface : faces.getD fid.id Face.dummy = face)
    (hdel : face.deleted = false)
    (hcand : dot (support face.normal) face.normal = cand)
    (hmax1 : (if cand < maxDist then cand else maxDist) = maxDist1)
    (hnoconv : ¬ (maxDist1 - (-fid.negDist) < epsTol))
    (hf1 : processNewFace (-fid.negDist) faces heap1
      (Face.new (vertices ++ [support face.normal]) (face.pts.1, vertices.length)) =
      FaceStep.cont faces1 heap2)
    (hf2 : processNewFace (-fid.negDist) faces1 heap2
      (Face.new (vertices ++ [support face.normal]) (vertices.length, face.pts.2)) =
      FaceStep.cont faces2 heap3)
    (hcap : 10000 ≤ niter) :
    expansionLoop support vertices faces heap niter maxDist bestId = none := by
  rw [expansionLoop_pop hpop, expansionStep_not_deleted hface hdel]
  rw [hcand, hmax1, if_neg hnoconv, hf1]
  dsimp only
  rw [hf2]
  dsimp only
  rw [dif_pos (by omega : 10000 < niter + 1)]

set_option maxRecDepth 4000 in
/-- Witness for C5: the single face at distance 1 with support point
`(5,0)` (projection distance 5, no convergence), both new faces rejected
by the segment projection (their edges do not contain the origin's
projection), and the counter at 10000: the loop gives up with `none`. -/
theorem epa_iteration_cap_returns_none_witness :
    expansionLoop (fun _ => ⟨5, 0⟩) [⟨1, -1⟩, ⟨1, 1⟩]
      [⟨(0, 1), ⟨1, 0⟩, ⟨1, 0⟩, false⟩] [⟨0, -1⟩] 10000 f64Max ⟨0, -1⟩ = none := by
  have hf1 : processNewFace (-(FaceId.mk 0 (-1)).negDist)
      [⟨(0, 1), ⟨1, 0⟩, ⟨1, 0⟩, false⟩] []
      (Face.new ([⟨1, -1⟩, ⟨1, 1⟩] ++ [(fun (_ : V2) => (⟨5, 0⟩ : V2)) (Face.mk (0, 1) ⟨1, 0⟩ ⟨1, 0⟩ false).normal])
        ((Face.mk (0, 1) ⟨1, 0⟩ ⟨1, 0⟩ false).pts.1, [(⟨1, -1⟩ : V2), ⟨1, 1⟩].length)) =
      FaceStep.cont [⟨(0, 1), ⟨1, 0⟩, ⟨1, 0⟩, false⟩, ⟨(0, 2), V2.zero, V2.zero, true⟩] [] := by
    norm_num [processNewFace, Face.new, Face.newWithProj, projectOriginSeg, ccwFaceNormal,
      ratSqrt, natSqrt, sqrtAux, dot, perp2, normSq, epsTol, V2.zero, V2.sub_def, V2.neg_def,
      List.getD_cons_zero, List.getD_cons_succ]
  have hf2 : processNewFace (-(FaceId.mk 0 (-1)).negDist)
      [⟨(0, 1), ⟨1, 0⟩, ⟨1, 0⟩, false⟩, ⟨(0, 2), V2.zero, V2.zero, true⟩] []
      (Face.new ([⟨1, -1⟩, ⟨1, 1⟩] ++ [(fun (_ : V2) => (⟨5, 0⟩ : V2)) (Face.mk (0, 1) ⟨1, 0⟩ ⟨1, 0⟩ false).normal])
        ([(⟨1, -1⟩ : V2), ⟨1, 1⟩].length, (Face.mk (0, 1) ⟨1, 0⟩ ⟨1, 0⟩ false).pts.2)) =
      FaceStep.cont [⟨(0, 1), ⟨1, 0⟩, ⟨1, 0⟩, false⟩, ⟨(0, 2), V2.zero, V2.zero, true⟩,
        ⟨(2, 1), V2.zero, V2.zero, true⟩] [] := by
    norm_num [processNewFace, Face.new, Face.newWithProj, projectOriginSeg, ccwFaceNormal,
      ratSqrt, natSqrt, sqrtAux, dot, perp2, normSq, epsTol, V2.zero, V2.sub_def, V2.neg_def,
      List.getD_cons_zero, List.getD_cons_succ]
  exact epa_iteration_cap_returns_none (fun _ => ⟨5, 0⟩) [⟨1, -1⟩, ⟨1, 1⟩]
    [⟨(0, 1), ⟨1, 0⟩, ⟨1, 0⟩, false⟩]
    [⟨(0, 1), ⟨1, 0⟩, ⟨1, 0⟩, false⟩, ⟨(0, 2), V2.zero, V2.zero, true⟩]
    [⟨(0, 1), ⟨1, 0⟩, ⟨1, 0⟩, false⟩, ⟨(0, 2), V2.zero, V2.zero, true⟩,
      ⟨(2, 1), V2.zero, V2.zero, true⟩]
    [⟨0, -1⟩] [] [] [] 10000 f64Max ⟨0, -1⟩ ⟨0, -1⟩
    ⟨(0, 1), ⟨1, 0⟩, ⟨1, 0⟩, false⟩ 5 5
    rfl rfl rfl (by norm_num [dot]) (by norm_num [f64Max]) (by norm_num [epsTol])
    hf1 hf2 le_rfl

theorem processNewFace_ret {currDist : ℚ} {faces : List Face} {heap : List FaceId}
    {f : Face} (hlt : dot f.normal f.proj < currDist) :
    processNewFace currDist faces heap (f, true) = FaceStep.ret f.proj f.normal := by
  rw [processNewFace]
  dsimp only
  rw [if_pos hlt, if_pos rfl]

/-- C7: during face splitting, if a newly created face whose
origin-projection lies inside it (`proj_is_inside = true`) has a distance
to the origin strictly smaller than the distance of the face being
replaced, the loop immediately terminates returning that new face's
projected point and normal — stated for the first split face, and for the
second split face when the first one fell through. -/
theorem epa_inconsistent_split_returns_new_face
    (support : V2 → V2) (vertices : List V2) (faces : List Face)
    (heap heap1 : List FaceId) (niter : Nat) (maxDist : ℚ) (bestId fid : FaceId)
    (face : Face) (cand maxDist1 : ℚ)
    (hpop : heapPop heap = some (fid, heap1))
    (hface : faces.getD fid.id Face.dummy = face)
    (hdel : face.deleted = false)
    (hcand : dot (support face.normal) face.normal = cand)
    (hmax1 : (if cand < maxDist then cand else maxDist) = maxDist1)
    (hnoconv : ¬ (maxDist1 - (-fid.negDist) < epsTol)) :
    (∀ f1 : Face,
      Face.new (vertices ++ [support face.normal]) (face.pts.1, vertices.length) = (f1, true) →
      dot f1.normal f1.proj < -fid.negDist →
      expansionLoop support vertices faces heap niter maxDist bestId =
        some (f1.proj, f1.normal)) ∧
    (∀ (faces1 : List Face) (heap2 : List FaceId) (f2 : Face),
      processNewFace (-fid.negDist) faces heap1
        (Face.new (vertices ++ [support face.normal]) (face.pts.1, vertices.length)) =
        FaceStep.cont faces1 heap2 →
      Face.new (vertices ++ [support face.normal]) (vertices.length, face.pts.2) = (f2, true) →
      dot f2.normal f2.proj < -fid.negDist →
      expansionLoop support vertices faces heap niter maxDist bestId =
        some (f2.proj, f2.normal)) := by
  constructor
  · intro f1 hf1 hlt
    rw [expansionLoop_pop hpop, expansionStep_not_deleted hface hdel]
    rw [hcand, hmax1, if_neg hnoconv, hf1, processNewFace_ret hlt]
  · intro faces1 heap2 f2 hc1 hf2 hlt
    rw [expansionLoop_pop hpop, expansionStep_not_deleted hface hdel]
    rw [hcand, hmax1, if_neg hnoconv, hc1]
    dsimp only
    rw [hf2, processNewFace_ret hlt]

set_option maxRecDepth 4000 in
/-- Witness for C7: the face at distance 1 (normal `(1,0)`), support point
`(2,0)` (projection distance 2, no convergence): the first new face, the
edge from `(-2,3)` to `(2,0)`, contains the origin's projection at
`(18/25, 24/25)` and its distance `-6/5` is smaller than 1, so the loop
returns that face's projection and normal `(-3/5, -4/5)` at once. -/
theorem epa_inconsistent_split_returns_new_face_witness :
    expansionLoop (fun _ => ⟨2, 0⟩) [⟨-2, 3⟩, ⟨0, 1⟩]
      [⟨(0, 1), ⟨1, 0⟩, ⟨1, 0⟩, false⟩] [⟨0, -1⟩] 0 f64Max ⟨0, -1⟩ =
      some (⟨18 / 25, 24 / 25⟩, ⟨-3 / 5, -4 / 5⟩) := by
  have hf1 : Face.new ([⟨-2, 3⟩, ⟨0, 1⟩] ++
      [(fun (_ : V2) => (⟨2, 0⟩ : V2)) (Face.mk (0, 1) ⟨1, 0⟩ ⟨1, 0⟩ false).normal])
      ((Face.mk (0, 1) ⟨1, 0⟩ ⟨1, 0⟩ false).pts.1, [(⟨-2, 3⟩ : V2), ⟨0, 1⟩].length) =
      (⟨(0, 2), ⟨-3 / 5, -4 / 5⟩, ⟨18 / 25, 24 / 25⟩, false⟩, true) := by
    norm_num [Face.new, Face.newWithProj, projectOriginSeg, ccwFaceNormal, ratSqrt,
      natSqrt, sqrtAux, dot, perp2, normSq, epsTol, V2.zero, V2.sub_def, V2.neg_def,
      List.getD_cons_zero, List.getD_cons_succ]
  exact (epa_inconsistent_split_returns_new_face (fun _ => ⟨2, 0⟩) [⟨-2, 3⟩, ⟨0, 1⟩]
    [⟨(0, 1), ⟨1, 0⟩, ⟨1, 0⟩, false⟩] [⟨0, -1⟩] [] 0 f64Max ⟨0, -1⟩ ⟨0, -1⟩
    ⟨(0, 1), ⟨1, 0⟩, ⟨1, 0⟩, false⟩ 2 2
    rfl rfl rfl (by norm_num [dot]) (by norm_num [f64Max]) (by norm_num [epsTol])).1
    ⟨(0, 2), ⟨-3 / 5, -4 / 5⟩, ⟨18 / 25, 24 / 25⟩, false⟩ hf1 (by norm_num [dot])

theorem initTriangle_some {simplex vs : List V2} {faces : List Face}
    {heap : List FaceId}
    (hinit : initTriangle simplex = some (vs, faces, heap)) :
    ∃ h1 h2, vs = triangleVerts simplex ∧
      faces = [(Face.new vs (0, 1)).1, (Face.new vs (1, 2)).1, (Face.new vs (2, 0)).1] ∧
      pushEntry [] (Face.new vs (0, 1)).2 0
        (-(dot (Face.new vs (0, 1)).1.normal (vs.getD 0 V2.zero))) = some h1 ∧
      pushEntry h1 (Face.new vs (1, 2)).2 1
        (-(dot (Face.new vs (1, 2)).1.normal (vs.getD 1 V2.zero))) = some h2 ∧
      pushEntry h2 (Face.new vs (2, 0)).2 2
        (-(dot (Face.new vs (2, 0)).1.normal (vs.getD 2 V2.zero))) = some heap := by
  delta initTriangle at hinit
  dsimp only at hinit
  split at hinit
  · cases hinit
  · rename_i h1 hp1
    split at hinit
    · cases hinit
    · rename_i h2 hp2
      split at hinit
      · cases hinit
      · rename_i h3 hp3
        cases hinit
        exact ⟨h1, h2, rfl, rfl, hp1, hp2, hp3⟩

theorem FaceId.new_some {i : Nat} {k : ℚ} {fid : FaceId}
    (h : FaceId.new i k = some fid) : fid = ⟨i, k⟩ := by
  rw [FaceId.new] at h
  split at h
  · cases h
  · cases h
    rfl

theorem pushEntry_mem {heap : List FaceId} {cond : Bool} {idx : Nat} {key : ℚ}
    {heap1 : List FaceId} (h : pushEntry heap cond idx key = some heap1) :
    ∀ fid ∈ heap1, fid ∈ heap ∨ fid = ⟨idx, key⟩ := by
  rw [pushEntry] at h
  cases cond
  · simp only [Bool.false_eq_true, if_false] at h
    cases h
    exact fun fid hm => Or.inl hm
  · rw [if_pos rfl] at h
    rcases hn : FaceId.new idx key with _ | fid0 <;> rw [hn] at h
    · cases h
    · rw [Option.map_some'] at h
      cases h
      intro fid hm
      rcases List.mem_cons.1 hm with rfl | hm
      · exact Or.inr (FaceId.new_some hn)
      · exact Or.inl hm

theorem Face.newWithProj_pts (vertices : List V2) (proj : V2) (pts : Nat × Nat) :
    (Face.newWithProj vertices proj pts).pts = pts := by
  rw [Face.newWithProj]
  split <;> rfl

theorem Face.new_pts (vertices : List V2) (pts : Nat × Nat) :
    ((Face.new vertices pts).1).pts = pts := by
  rw [Face.new]
  split <;> exact Face.newWithProj_pts _ _ _

theorem initSegment_some {simplex : List V2} {faces : List Face} {heap : List FaceId}
    (h : initSegment simplex = some (faces, heap)) :
    ∃ fid1 fid2,
      faces = [Face.newWithProj simplex V2.zero (0, 1),
        Face.newWithProj simplex V2.zero (1, 0)] ∧
      FaceId.new 0 (dot (Face.newWithProj simplex V2.zero (0, 1)).normal
        (simplex.getD 0 V2.zero)) = some fid1 ∧
      FaceId.new 1 (dot (Face.newWithProj simplex V2.zero (1, 0)).normal
        (simplex.getD 1 V2.zero)) = some fid2 ∧
      heap = [fid2, fid1] := by
  delta initSegment at h
  dsimp only at h
  split at h
  · cases h
  · rename_i fid1 hn1
    split at h
    · cases h
    · rename_i fid2 hn2
      cases h
      exact ⟨fid1, fid2, rfl, hn1, hn2, rfl⟩

theorem heapPop_none {l : List FaceId} : heapPop l = none ↔ l = [] := by
  cases l with
  | nil => simp [heapPop]
  | cons a as =>
    rw [heapPop]
    rcases hm : heapPop as with _ | ⟨m, rest⟩ <;> dsimp only <;> simp only [List.cons_ne_nil]
    · simp
    · split <;> simp

theorem heapPop_mem {l : List FaceId} {m : FaceId} {r : List FaceId}
    (h : heapPop l = some (m, r)) : ∀ e ∈ l, e = m ∨ e ∈ r := by
  induction l generalizing m r with
  | nil => simp [heapPop] at h
  | cons a as ih =>
    rw [heapPop] at h
    rcases hm : heapPop as with _ | ⟨mx, rest⟩ <;> rw [hm] at h <;> dsimp only at h
    · cases h
      intro e he
      rcases List.mem_cons.1 he with rfl | he
      · exact Or.inl rfl
      · rw [heapPop_none.1 hm] at he
        simp at he
    · by_cases hle : mx.negDist ≤ a.negDist
      · rw [if_pos hle] at h
        cases h
        intro e he
        rcases List.mem_cons.1 he with rfl | he
        · exact Or.inl rfl
        · exact Or.inr he
      · rw [if_neg hle] at h
        cases h
        intro e he
        rcases List.mem_cons.1 he with rfl | he
        · exact Or.inr (List.mem_cons_self _ _)
        · rcases ih hm e he with rfl | h2
          · exact Or.inl rfl
          · exact Or.inr (List.mem_cons_of_mem _ h2)

theorem heapPop_max {l : List FaceId} {m : FaceId} {r : List FaceId}
    (h : heapPop l = some (m, r)) : ∀ e ∈ r, e.negDist ≤ m.negDist := by
  induction l generalizing m r with
  | nil => simp [heapPop] at h
  | cons a as ih =>
    rw [heapPop] at h
    rcases hm : heapPop as with _ | ⟨mx, rest⟩ <;> rw [hm] at h <;> dsimp only at h
    · cases h
      simp
    · by_cases hle : mx.negDist ≤ a.negDist
      · rw [if_pos hle] at h
        cases h
        intro e he
        rcases heapPop_mem hm e he with rfl | h2
        · exact hle
        · exact le_trans (ih hm e h2) hle
      · rw [if_neg hle] at h
        cases h
        intro e he
        rcases List.mem_cons.1 he with rfl | he
        · exact le_of_lt (lt_of_not_le hle)
        · exact ih hm e he

theorem expansionStep_skip {support : V2 → V2} {vertices : List V2}
    {faces : List Face} {fid : FaceId} {heap1 : List FaceId} {niter : Nat}
    {maxDist : ℚ} {bestId : FaceId}
    (hdel : (faces.getD fid.id Face.dummy).deleted = true) :
    expansionStep support vertices faces fid heap1 niter maxDist bestId =
      LoopOut.skip := by
  rw [expansionStep]
  dsimp only
  rw [hdel, if_pos rfl]

theorem processNewFace_cont_mem {currDist : ℚ} {faces : List Face}
    {heap : List FaceId} {fb : Face × Bool} {faces1 : List Face}
    {heap1 : List FaceId}
    (h : processNewFace currDist faces heap fb = FaceStep.cont faces1 heap1) :
    ∀ fid ∈ heap1, fid ∈ heap ∨ fid.negDist = -(dot fb.1.normal fb.1.proj) := by
  obtain ⟨f, b⟩ := fb
  rw [processNewFace] at h
  cases b
  · simp only [Bool.false_eq_true, if_false] at h
    cases h
    exact fun fid hm => Or.inl hm
  · rw [if_pos rfl] at h
    dsimp only at h
    split at h
    · cases h
    · split at h
      · cases h
        exact fun fid hm => Or.inl hm
      · rcases hn : FaceId.new faces.length
          (-(dot f.normal f.proj)) with _ | fid0 <;> rw [hn] at h
        · cases h
        · cases h
          intro fid hm
          rcases List.mem_cons.1 hm with rfl | hm
          · rw [FaceId.new_some hn]
            exact Or.inr rfl
          · exact Or.inl hm

/-- C4 (amended): entries pushed in the triangle initialization are keyed
by the negated signed distance of their face (`-dot(normal, vertex)`), as
are entries pushed by the expansion loop (`-dot(normal, proj)`, reaching
the heap only through `FaceId::new`); entries pushed in the degenerate
two-vertex initialization are keyed by the **un-negated** signed distance
`dot(normal, vertex)`.  Each pop yields an entry of maximal key — for the
negated keys, the closest-to-origin face among those still in the queue —
and a popped face flagged deleted is lazily skipped: the loop recurses on
the remaining heap with the rest of the state untouched. -/
theorem epa_heap_keying_and_pop_order :
    (∀ (simplex vs : List V2) (faces : List Face) (heap : List FaceId),
        initTriangle simplex = some (vs, faces, heap) →
        ∀ fid ∈ heap,
          fid.negDist = -(faceSignedDist vs (faces.getD fid.id Face.dummy))) ∧
    (∀ (simplex : List V2) (faces : List Face) (heap : List FaceId),
        initSegment simplex = some (faces, heap) →
        ∀ fid ∈ heap,
          fid.negDist = faceSignedDist simplex (faces.getD fid.id Face.dummy)) ∧
    (∀ (currDist : ℚ) (faces : List Face) (heap : List FaceId) (fb : Face × Bool)
       (faces1 : List Face) (heap1 : List FaceId),
        processNewFace currDist faces heap fb = FaceStep.cont faces1 heap1 →
        ∀ fid ∈ heap1, fid ∈ heap ∨ fid.negDist = -(dot fb.1.normal fb.1.proj)) ∧
    (∀ (heap : List FaceId) (fid : FaceId) (rest : List FaceId),
        heapPop heap = some (fid, rest) → ∀ e ∈ rest, e.negDist ≤ fid.negDist) ∧
    (∀ (support : V2 → V2) (vertices : List V2) (faces : List Face)
       (heap heap1 : List FaceId) (niter : Nat) (maxDist : ℚ) (bestId fid : FaceId),
        heapPop heap = some (fid, heap1) →
        (faces.getD fid.id Face.dummy).deleted = true →
        expansionLoop support vertices faces heap niter maxDist bestId =
          expansionLoop support vertices faces heap1 niter maxDist bestId) := by
  refine ⟨?_, ?_, ?_, ?_, ?_⟩
  · intro simplex vs faces heap hinit fid hmem
    obtain ⟨h1, h2, hvs, hfaces, hp1, hp2, hp3⟩ := initTriangle_some hinit
    subst hfaces
    rcases pushEntry_mem hp3 fid hmem with hm2 | rfl
    · rcases pushEntry_mem hp2 fid hm2 with hm1 | rfl
      · rcases pushEntry_mem hp1 fid hm1 with hm0 | rfl
        · simp at hm0
        · simp only [faceSignedDist, List.getD_cons_zero, Face.new_pts]
      · simp only [faceSignedDist, List.getD_cons_succ, List.getD_cons_zero, Face.new_pts]
    · simp only [faceSignedDist, List.getD_cons_succ, List.getD_cons_zero, Face.new_pts]
  · intro simplex faces heap hinit fid hmem
    obtain ⟨fid1, fid2, hfaces, hn1, hn2, hheap⟩ := initSegment_some hinit
    subst hfaces
    subst hheap
    rcases List.mem_cons.1 hmem with rfl | hmem
    · rw [FaceId.new_some hn2]
      simp only [faceSignedDist, List.getD_cons_succ, List.getD_cons_zero,
        Face.newWithProj_pts]
    · rcases List.mem_cons.1 hmem with rfl | hmem
      · rw [FaceId.new_some hn1]
        simp only [faceSignedDist, List.getD_cons_zero, Face.newWithProj_pts]
      · simp at hmem
  · intro currDist faces heap fb faces1 heap1 h
    exact processNewFace_cont_mem h
  · intro heap fid rest h
    exact heapPop_max h
  · intro support vertices faces heap heap1 niter maxDist bestId fid hpop hdel
    rw [expansionLoop_pop hpop, expansionStep_skip hdel]

/-- C4 (counterexample): in the degenerate two-vertex initialization on
the segment from `(2⁻⁵⁴, -1)` to `(2⁻⁵⁴, 1)`, the entry for face 0 is
keyed `2⁻⁵⁴` — the **un-negated** signed distance of that face — while the
claim demands the negated distance `-2⁻⁵⁴`. -/
theorem epa_heap_keying_cex :
    initSegment [⟨1 / 2 ^ 54, -1⟩, ⟨1 / 2 ^ 54, 1⟩] =
      some ([⟨(0, 1), ⟨1, 0⟩, V2.zero, false⟩, ⟨(1, 0), ⟨-1, 0⟩, V2.zero, false⟩],
        [⟨1, -(1 / 2 ^ 54)⟩, ⟨0, 1 / 2 ^ 54⟩]) ∧
    faceSignedDist [⟨1 / 2 ^ 54, -1⟩, ⟨1 / 2 ^ 54, 1⟩]
      ([⟨(0, 1), ⟨1, 0⟩, V2.zero, false⟩,
        ⟨(1, 0), ⟨-1, 0⟩, V2.zero, false⟩].getD (FaceId.mk 0 (1 / 2 ^ 54)).id Face.dummy) =
      1 / 2 ^ 54 ∧
    (1 / 2 ^ 54 : ℚ) ≠ -(1 / 2 ^ 54 : ℚ) := by
  refine ⟨?_, ?_, by norm_num⟩
  · have hf1 : Face.newWithProj [(⟨1 / 2 ^ 54, -1⟩ : V2), ⟨1 / 2 ^ 54, 1⟩] V2.zero (0, 1) =
        ⟨(0, 1), ⟨1, 0⟩, V2.zero, false⟩ := by
      norm_num [Face.newWithProj, ccwFaceNormal, ratSqrt, natSqrt, sqrtAux, dot, normSq,
        V2.zero, V2.sub_def, V2.neg_def, List.getD_cons_zero, List.getD_cons_succ]
    have hf2 : Face.newWithProj [(⟨1 / 2 ^ 54, -1⟩ : V2), ⟨1 / 2 ^ 54, 1⟩] V2.zero (1, 0) =
        ⟨(1, 0), ⟨-1, 0⟩, V2.zero, false⟩ := by
      norm_num [Face.newWithProj, ccwFaceNormal, ratSqrt, natSqrt, sqrtAux, dot, normSq,
        V2.zero, V2.sub_def, V2.neg_def, List.getD_cons_zero, List.getD_cons_succ]
    delta initSegment
    dsimp only
    rw [hf1, hf2]
    norm_num [FaceId.new, dot, epsTol, V2.zero, List.getD_cons_zero, List.getD_cons_succ]
  · simp only [faceSignedDist, List.getD_cons_zero]
    norm_num [dot, List.getD_cons_zero]

set_option maxRecDepth 4000 in
/-- Witness for the amended C4: the counter-clockwise triangle
`(1,-1), (1,1), (-1,0)` around the origin keys its first face (distance 1)
as `-1`, matching the negated signed distance; and popping the two-entry
heap `[⟨0,-2⟩, ⟨1,-1⟩]` yields the entry with the maximal key `-1` (the
closest face, distance 1), every remaining key being at most `-1`. -/
theorem epa_heap_keying_and_pop_order_witness :
    ((FaceId.mk 0 (-1)).negDist =
      -(faceSignedDist [⟨1, -1⟩, ⟨1, 1⟩, ⟨-1, 0⟩]
        ([⟨(0, 1), ⟨1, 0⟩, ⟨1, 0⟩, false⟩,
          ⟨(1, 2), V2.zero, ⟨-1 / 5, 2 / 5⟩, true⟩,
          ⟨(2, 0), V2.zero, ⟨-1 / 5, -2 / 5⟩, true⟩].getD (FaceId.mk 0 (-1)).id Face.dummy))) ∧
    (∀ e ∈ [FaceId.mk 0 (-2)], e.negDist ≤ (FaceId.mk 1 (-1)).negDist) := by
  have hvs : triangleVerts [⟨1, -1⟩, ⟨1, 1⟩, ⟨-1, 0⟩] = [⟨1, -1⟩, ⟨1, 1⟩, ⟨-1, 0⟩] := by
    norm_num [triangleVerts, perp2, V2.sub_def, List.getD_cons_zero, List.getD_cons_succ]
  have hf1 : Face.new [(⟨1, -1⟩ : V2), ⟨1, 1⟩, ⟨-1, 0⟩] (0, 1) =
      (⟨(0, 1), ⟨1, 0⟩, ⟨1, 0⟩, false⟩, true) := by
    norm_num [Face.new, Face.newWithProj, projectOriginSeg, ccwFaceNormal, ratSqrt,
      natSqrt, sqrtAux, dot, perp2, normSq, epsTol, V2.zero, V2.sub_def, V2.neg_def,
      List.getD_cons_zero, List.getD_cons_succ]
  have hf2 : Face.new [(⟨1, -1⟩ : V2), ⟨1, 1⟩, ⟨-1, 0⟩] (1, 2) =
      (⟨(1, 2), V2.zero, ⟨-1 / 5, 2 / 5⟩, true⟩, true) := by
    norm_num [Face.new, Face.newWithProj, projectOriginSeg, ccwFaceNormal, ratSqrt,
      natSqrt, sqrtAux, dot, perp2, normSq, epsTol, V2.zero, V2.sub_def, V2.neg_def,
      List.getD_cons_zero, List.getD_cons_succ]
  have hf3 : Face.new [(⟨1, -1⟩ : V2), ⟨1, 1⟩, ⟨-1, 0⟩] (2, 0) =
      (⟨(2, 0), V2.zero, ⟨-1 / 5, -2 / 5⟩, true⟩, true) := by
    norm_num [Face.new, Face.newWithProj, projectOriginSeg, ccwFaceNormal, ratSqrt,
      natSqrt, sqrtAux, dot, perp2, normSq, epsTol, V2.zero, V2.sub_def, V2.neg_def,
      List.getD_cons_zero, List.getD_cons_succ]
  have hinit : initTriangle [⟨1, -1⟩, ⟨1, 1⟩, ⟨-1, 0⟩] =
      some ([⟨1, -1⟩, ⟨1, 1⟩, ⟨-1, 0⟩],
        [⟨(0, 1), ⟨1, 0⟩, ⟨1, 0⟩, false⟩,
          ⟨(1, 2), V2.zero, ⟨-1 / 5, 2 / 5⟩, true⟩,
          ⟨(2, 0), V2.zero, ⟨-1 / 5, -2 / 5⟩, true⟩],
        [⟨2, 0⟩, ⟨1, 0⟩, ⟨0, -1⟩]) := by
    delta initTriangle
    rw [hvs]
    dsimp only
    rw [hf1, hf2, hf3]
    dsimp only
    norm_num [pushEntry, FaceId.new, dot, epsTol, V2.zero,
      List.getD_cons_zero, List.getD_cons_succ]
  constructor
  · exact epa_heap_keying_and_pop_order.1 [⟨1, -1⟩, ⟨1, 1⟩, ⟨-1, 0⟩]
      [⟨1, -1⟩, ⟨1, 1⟩, ⟨-1, 0⟩]
      [⟨(0, 1), ⟨1, 0⟩, ⟨1, 0⟩, false⟩,
        ⟨(1, 2), V2.zero, ⟨-1 / 5, 2 / 5⟩, true⟩,
        ⟨(2, 0), V2.zero, ⟨-1 / 5, -2 / 5⟩, true⟩]
      [⟨2, 0⟩, ⟨1, 0⟩, ⟨0, -1⟩] hinit ⟨0, -1⟩ (by simp)
  · exact epa_heap_keying_and_pop_order.2.2.2.1 [⟨1, -1⟩, ⟨0, -2⟩] ⟨1, -1⟩
      [⟨0, -2⟩] (by norm_num [heapPop])
